import Mathlib

/-!
Verification of the AtlasInContext frontend client (src/frontend/static/main.js)
against its natural-language specification.

The JavaScript is shallowly embedded: response bodies become lists of byte
chunks, JS objects become association lists, JS numbers become rationals,
and the abstract collaborators (the gzip decoder and the JSON parser of the
platform) become function parameters returning `Option`.
-/

namespace AtlasInContext

/-- A chunk of bytes delivered by one read of a response body stream. -/
abbrev Chunk := List Nat

/-- A reader over a streamed response body, as obtained from
`response.body.getReader()`: it holds the chunks not yet consumed. -/
structure Reader where
  chunks : List Chunk
deriving DecidableEq, Repr

/-- One `reader.read()`: resolves with `done` (here `none`) when the stream is
exhausted, otherwise with the next chunk and the advanced reader. -/
def Reader.read : Reader → Option Chunk × Reader
  | ⟨[]⟩ => (none, ⟨[]⟩)
  | ⟨c :: cs⟩ => (some c, ⟨cs⟩)

/-- The `push()` loop inside `combinedStream`'s `start` (main.js lines
151-161): it keeps calling `reader.read()`, enqueuing every chunk until the
reader reports done. -/
def pushLoop : Reader → List Chunk
  | ⟨[]⟩ => []
  | ⟨c :: cs⟩ => c :: pushLoop ⟨cs⟩

/-- The `combinedStream` reconstructed after peeking (main.js lines 148-163):
the already-consumed first chunk is enqueued first, then the push loop drains
the rest of the reader. -/
def combinedStream (value : Chunk) (reader : Reader) : List Chunk :=
  value :: pushLoop reader

/-- The gzip magic-number test of main.js line 145,
`value[0] === 0x1f && value[1] === 0x8b`.  On a chunk of fewer than two bytes
the JS index is `undefined` and the strict comparison is false. -/
def isEncryptedCheck (value : Chunk) : Bool :=
  match value with
  | b0 :: b1 :: _ => b0 == 0x1f && b1 == 0x8b
  | _ => false

/-- The possible outcomes of `fetchWithDecompress`, read off from main.js:
a `null` return for an empty body (line 142), a parsed JSON value, the
`CORRUPTED_GZIP` error (line 172), a JSON syntax error from `.json()`, or an
`HTTP <status>` error (lines 131 and 134). -/
inductive FetchOutcome (J : Type) where
  | nullBody : FetchOutcome J
  | json : J → FetchOutcome J
  | corruptedGzip : FetchOutcome J
  | syntaxError : FetchOutcome J
  | httpError : Nat → FetchOutcome J
deriving DecidableEq, Repr

/-- `new Response(stream).json()`: concatenates the chunks and parses the
bytes as JSON, rejecting (here `syntaxError`) when parsing fails. -/
def responseJson {J : Type} (parseJson : List Nat → Option J)
    (chunks : List Chunk) : FetchOutcome J :=
  match parseJson chunks.flatten with
  | none => .syntaxError
  | some j => .json j

/-- The body-processing part of `fetchWithDecompress` (main.js lines
139-177), run once the response is ok: peek at the first chunk, test the gzip
magic number, rebuild the stream, then either decompress-and-parse inside the
try block (any failure there is caught and rethrown as `CORRUPTED_GZIP`) or
parse the reconstructed stream directly. -/
def processBody {J : Type} (gunzip : List Nat → Option (List Nat))
    (parseJson : List Nat → Option J) (body : List Chunk) : FetchOutcome J :=
  let reader : Reader := ⟨body⟩
  match reader.read with
  | (none, _) => .nullBody
  | (some value, rest) =>
    let isEncrypted := isEncryptedCheck value
    let combined := combinedStream value rest
    if isEncrypted then
      match gunzip combined.flatten with
      | none => .corruptedGzip
      | some plain =>
        match parseJson plain with
        | none => .corruptedGzip
        | some j => .json j
    else
      responseJson parseJson combined

/-- A fetched HTTP response: its ok flag, status, and body chunks. -/
structure Response where
  ok : Bool
  status : Nat
  body : List Chunk
deriving DecidableEq, Repr

/-- `fetchWithDecompress` (main.js lines 123-178).  `gzResponse` is what
`fetch` returns for the `.gz` variant of the URL and `plainResponse` what it
returns for the plain URL; `useGzip` is `CONFIG.useGzip`.  A non-ok response
falls back to the plain URL when gzip is enabled (parsing its body with a
plain `.json()`), and throws `HTTP <status>` otherwise. -/
def fetchWithDecompress {J : Type} (useGzip : Bool)
    (gunzip : List Nat → Option (List Nat)) (parseJson : List Nat → Option J)
    (gzResponse plainResponse : Response) : FetchOutcome J :=
  let response := if useGzip then gzResponse else plainResponse
  if !response.ok then
    if useGzip then
      let fallbackResponse := plainResponse
      if !fallbackResponse.ok then .httpError fallbackResponse.status
      else responseJson parseJson fallbackResponse.body
    else .httpError response.status
  else
    processBody gunzip parseJson response.body

/-- One cell of the vibe-scores object.  `vibe`, `p_int` and `n_int` are
always read as numbers; `count`, `noise_count` and `progress_count` are read
through `|| 0`, so a missing field (here `none`) contributes 0. -/
structure CellData where
  vibe : ℚ
  count : Option ℚ
  noise_count : Option ℚ
  progress_count : Option ℚ
  p_int : ℚ
  n_int : ℚ
deriving DecidableEq, Repr

/-- The loaded vibe-scores object: its `cells` map, modelled as an
association list from H3 index to cell data. -/
structure VibeScores where
  cells : List (String × CellData)
deriving DecidableEq, Repr

/-- JS property access `state.vibeScores.cells[h3Index]`. -/
def getCell (cells : List (String × CellData)) (h3Index : String) :
    Option CellData :=
  (cells.find? (fun kv => kv.1 == h3Index)).map (fun kv => kv.2)

/-- The statistics computed and displayed by `updateStats`. -/
structure StatsTotals where
  totalRegions : ℚ
  totalEvents : ℚ
  totalVibe : ℚ
  totalNoise : ℚ
  totalProgress : ℚ
  avgVibe : ℚ
deriving DecidableEq, Repr

/-- The computation of `updateStats` (main.js lines 938-963): one loop over
`Object.values(state.vibeScores.cells)` accumulating the four running totals,
then the average vibe as total vibe over the number of keys. -/
def updateStats (vibeScores : VibeScores) : StatsTotals :=
  let totalRegions : ℚ := vibeScores.cells.length
  let folded := vibeScores.cells.foldl
    (fun acc kv =>
      let cellData := kv.2
      (acc.1 + cellData.vibe,
       acc.2.1 + (cellData.count.getD 0),
       acc.2.2.1 + (cellData.noise_count.getD 0),
       acc.2.2.2 + (cellData.progress_count.getD 0)))
    ((0 : ℚ), (0 : ℚ), (0 : ℚ), (0 : ℚ))
  let avgVibe := folded.1 / totalRegions
  { totalRegions := totalRegions
    totalEvents := folded.2.1
    totalVibe := folded.1
    totalNoise := folded.2.2.1
    totalProgress := folded.2.2.2
    avgVibe := avgVibe }

/-- `getVisualizationValue` (main.js lines 284-297): look up the cell for the
H3 index, return 0 when there is none, otherwise switch on the current view
mode; `'balanced'` shares the `default` branch. -/
def getVisualizationValue (vibeScores : VibeScores) (currentViewMode : String)
    (h3Index : String) : ℚ :=
  match getCell vibeScores.cells h3Index with
  | none => 0
  | some cellData =>
    if currentViewMode = "progress" then min 1 (cellData.p_int / 10)
    else if currentViewMode = "noise" then min 1 (cellData.n_int / 10)
    else (cellData.vibe + 1) / 2

/-- `getVibeColor` (main.js lines 1170-1176). -/
def getVibeColor (vibe : ℚ) : String :=
  if vibe < -0.5 then "#ef4444"
  else if vibe < 0.0 then "#f97316"
  else if vibe < 0.3 then "#eab308"
  else if vibe < 0.6 then "#84cc16"
  else "#22c55e"

/-- `getVibeLabel` (main.js lines 1181-1187). -/
def getVibeLabel (vibe : ℚ) : String :=
  if vibe < -0.5 then "Crisis"
  else if vibe < 0.0 then "Tense"
  else if vibe < 0.3 then "Neutral"
  else if vibe < 0.6 then "Stable"
  else "Thriving"

/-- The global pulse object extracted from the vibe-scores payload. -/
structure Pulse where
  progress_signal : ℚ
  noise_signal : ℚ
  humanity_ratio : ℚ
deriving DecidableEq, Repr

/-- A DOM element touched by the pulse ticker: its text and its class. -/
structure DomElt where
  textContent : String
  className : String
deriving DecidableEq, Repr

/-- The DOM elements `updateGlobalPulse` looks up by id; `none` models
`document.getElementById` returning `null`. -/
structure PulseDom where
  pulseProgress : Option DomElt
  pulseNoise : Option DomElt
  pulseRatio : Option DomElt
  pulseProgressMobile : Option DomElt
  pulseNoiseMobile : Option DomElt
  pulseRatioMobile : Option DomElt
deriving DecidableEq, Repr

/-- The ratio colour coding of `updateGlobalPulse` (main.js lines 893-901). -/
def ratioClass (ratio : ℚ) : String :=
  if ratio > 1 then "font-bold text-green-400"
  else if ratio > 0.5 then "font-bold text-yellow-400"
  else "font-bold text-red-400"

/-- `updateGlobalPulse` (main.js lines 869-911).  `fmtNum` models
`toLocaleString` and `fmtFixed` models `toFixed(2)` (both opaque string
formattings of a number); the function returns the updated DOM.  When
`state.pulse` is null it returns at once, touching nothing. -/
def updateGlobalPulse (fmtNum fmtFixed : ℚ → String) (pulse : Option Pulse)
    (dom : PulseDom) : PulseDom :=
  match pulse with
  | none => dom
  | some p =>
    let progressVal := fmtNum p.progress_signal
    let noiseVal := fmtNum p.noise_signal
    let ratioVal := fmtFixed p.humanity_ratio
    let rc := ratioClass p.humanity_ratio
    { dom with
      pulseProgress :=
        dom.pulseProgress.map (fun e => { e with textContent := progressVal })
      pulseNoise :=
        dom.pulseNoise.map (fun e => { e with textContent := noiseVal })
      pulseProgressMobile :=
        dom.pulseProgressMobile.map
          (fun e => { e with textContent := progressVal })
      pulseNoiseMobile :=
        dom.pulseNoiseMobile.map (fun e => { e with textContent := noiseVal })
      pulseRatio :=
        dom.pulseRatio.map
          (fun _e => { textContent := ratioVal,
                       className := "text-lg " ++ rc })
      pulseRatioMobile :=
        dom.pulseRatioMobile.map
          (fun e => { e with textContent := ratioVal, className := rc }) }

/-- A GeoJSON property value. -/
inductive PropValue where
  | str : String → PropValue
  | num : ℚ → PropValue
  | boolean : Bool → PropValue
  | null : PropValue
deriving DecidableEq, Repr

/-- A GeoJSON feature of the core grid: its id, an opaque geometry, and its
properties object, modelled as an association list. -/
structure Feature where
  id : String
  geometry : String
  properties : List (String × PropValue)
deriving DecidableEq, Repr

/-- Property lookup on a JS object modelled as an association list. -/
def getProp (props : List (String × PropValue)) (k : String) :
    Option PropValue :=
  (props.find? (fun kv => kv.1 == k)).map (fun kv => kv.2)

/-- The object spread `{ ...props, k: v }`: the result maps `k` to `v` and
every other key to its value in `props`. -/
def setProp (props : List (String × PropValue)) (k : String) (v : PropValue) :
    List (String × PropValue) :=
  props.filter (fun kv => kv.1 != k) ++ [(k, v)]

/-- The core grid as returned by the fetch inside `loadCoreGrid`. -/
structure Grid where
  features : List Feature
deriving DecidableEq, Repr

/-- The per-feature decoration of `loadCoreGrid` (main.js lines 211-217):
`{ ...feature, properties: { ...feature.properties, h3_index: feature.id } }`. -/
def decorateFeature (feature : Feature) : Feature :=
  { feature with
    properties := setProp feature.properties "h3_index" (.str feature.id) }

/-- The `grid.features = grid.features.map(...)` step of `loadCoreGrid`. -/
def decorateGrid (grid : Grid) : Grid :=
  { grid with features := grid.features.map decorateFeature }

/-- The three loads issued by `loadAllData`, in order. -/
inductive LoadStep where
  | metadata : LoadStep
  | coreGrid : LoadStep
  | vibeScores : LoadStep
deriving DecidableEq, Repr

/-- The slice of `state` that `loadAllData` writes. -/
structure AppState (M G V : Type) where
  isLoading : Bool
  metadata : Option M
  coreGrid : Option G
  vibeScores : Option V
deriving DecidableEq, Repr

/-- `loadAllData` (main.js lines 260-275).  The three loaders are passed as
values/functions: `loadMetadata` is awaited first, `loadCoreGrid` is applied
to the metadata it produced, `loadVibeScores` runs last.  The result carries
the returned value or propagated error, the final state, and the trace of
loads actually performed, in order. -/
def loadAllData {E M G V : Type} (loadMetadata : Except E M)
    (loadCoreGrid : M → Except E G) (loadVibeScores : Except E V)
    (s : AppState M G V) :
    Except E Bool × AppState M G V × List LoadStep :=
  let s1 := { s with isLoading := true }
  match loadMetadata with
  | .error e => (.error e, { s1 with isLoading := false }, [.metadata])
  | .ok m =>
    let s2 := { s1 with metadata := some m }
    match loadCoreGrid m with
    | .error e =>
      (.error e, { s2 with isLoading := false }, [.metadata, .coreGrid])
    | .ok g =>
      let s3 := { s2 with coreGrid := some g }
      match loadVibeScores with
      | .error e =>
        (.error e, { s3 with isLoading := false },
         [.metadata, .coreGrid, .vibeScores])
      | .ok v =>
        (.ok true, { s3 with vibeScores := some v, isLoading := false },
         [.metadata, .coreGrid, .vibeScores])

/-- The push loop yields exactly the chunks remaining in the reader. -/
theorem pushLoop_chunks (cs : List Chunk) : pushLoop ⟨cs⟩ = cs := by
  induction cs with
  | nil => simp [pushLoop]
  | cons c cs ih => simpa [pushLoop] using ih

/-- The magic-number test succeeds exactly when the first two bytes of the
chunk are `0x1f 0x8b`. -/
theorem isEncryptedCheck_iff (c : Chunk) :
    isEncryptedCheck c = true ↔ c.take 2 = [0x1f, 0x8b] := by
  match c with
  | [] => simp [isEncryptedCheck]
  | [b0] => simp [isEncryptedCheck]
  | b0 :: b1 :: rest => simp [isEncryptedCheck, List.take_succ_cons]

/-- `processBody` on a non-empty body: peek at the first chunk, branch on the
magic number, and run on the reconstructed full chunk sequence. -/
theorem processBody_cons {J : Type} (gunzip : List Nat → Option (List Nat))
    (parseJson : List Nat → Option J) (c : Chunk) (cs : List Chunk) :
    processBody gunzip parseJson (c :: cs) =
      if isEncryptedCheck c then
        match gunzip (c :: cs).flatten with
        | none => FetchOutcome.corruptedGzip
        | some plain =>
          match parseJson plain with
          | none => FetchOutcome.corruptedGzip
          | some j => FetchOutcome.json j
      else responseJson parseJson (c :: cs) := by
  simp only [processBody, Reader.read, combinedStream, pushLoop_chunks]

/-- **C1.** For every successfully fetched body, `fetchWithDecompress`
decompresses the byte stream as gzip iff the first two bytes of the first
chunk are `0x1f` and `0x8b`; otherwise it parses the byte stream directly as
JSON; and when the magic number matched but gzip decompression fails, the
outcome is the `CORRUPTED_GZIP` error. -/
theorem fetchWithDecompress_gzip_detection {J : Type}
    (gunzip : List Nat → Option (List Nat)) (parseJson : List Nat → Option J)
    (c : Chunk) (cs : List Chunk) :
    (c.take 2 = [0x1f, 0x8b] →
      processBody gunzip parseJson (c :: cs) =
        (match gunzip (c :: cs).flatten with
         | none => FetchOutcome.corruptedGzip
         | some plain =>
           match parseJson plain with
           | none => FetchOutcome.corruptedGzip
           | some j => FetchOutcome.json j))
    ∧ (c.take 2 ≠ [0x1f, 0x8b] →
        processBody gunzip parseJson (c :: cs) =
          responseJson parseJson (c :: cs))
    ∧ (c.take 2 = [0x1f, 0x8b] → gunzip (c :: cs).flatten = none →
        processBody gunzip parseJson (c :: cs) =
          FetchOutcome.corruptedGzip) := by
  have hmagic := isEncryptedCheck_iff c
  refine ⟨?_, ?_, ?_⟩
  · intro h
    rw [processBody_cons, if_pos (hmagic.mpr h)]
  · intro h
    rw [processBody_cons, if_neg]
    simp [hmagic, h]
  · intro h hg
    rw [processBody_cons, if_pos (hmagic.mpr h), hg]

/-- Witness for C1 at concrete inputs: a corrupted gzip body, and a body
whose magic bytes are split across two chunks (hence not detected). -/
theorem fetchWithDecompress_gzip_detection_witness :
    processBody (fun _ => none) (fun l => some l.length) [[0x1f, 0x8b, 10]] =
      FetchOutcome.corruptedGzip
    ∧ processBody (fun _ => none) (fun l => some l.length) [[0x1f], [0x8b]] =
        FetchOutcome.json 2 := by
  have h1 := fetchWithDecompress_gzip_detection (fun _ => none)
    (fun l => some l.length) [0x1f, 0x8b, 10] []
  have h2 := fetchWithDecompress_gzip_detection (fun _ => none)
    (fun l => some l.length) [0x1f] [[0x8b]]
  refine ⟨h1.2.2 (by decide) rfl, ?_⟩
  rw [h2.2.1 (by decide)]
  decide

/-- **C2.** When the first read of the body yields a chunk, the reconstructed
`combinedStream` yields exactly the original body's chunks in order. -/
theorem combinedStream_preserves_body (body : List Chunk) (c : Chunk)
    (rest : Reader) (h : Reader.read ⟨body⟩ = (some c, rest)) :
    combinedStream c rest = body := by
  match body with
  | [] => simp [Reader.read] at h
  | b :: bs =>
    simp only [Reader.read, Prod.mk.injEq, Option.some.injEq] at h
    obtain ⟨hc, hrest⟩ := h
    subst hc
    subst hrest
    simp [combinedStream, pushLoop_chunks]

/-- Witness for C2 on a three-chunk body. -/
theorem combinedStream_preserves_body_witness :
    Reader.read ⟨[[1], [2, 3], []]⟩ = (some [1], ⟨[[2, 3], []]⟩)
    ∧ combinedStream [1] ⟨[[2, 3], []]⟩ = [[1], [2, 3], []] :=
  ⟨by decide,
   combinedStream_preserves_body [[1], [2, 3], []] [1] ⟨[[2, 3], []]⟩
     (by decide)⟩

/-- **C3.** With gzip enabled, a non-ok `.gz` response makes
`fetchWithDecompress` fall back to the plain URL, returning its parsed JSON
when it is ok and throwing `HTTP <status>` exactly when the fallback is also
non-ok; with gzip disabled a non-ok response throws immediately. -/
theorem fetchWithDecompress_fallback {J : Type}
    (gunzip : List Nat → Option (List Nat)) (parseJson : List Nat → Option J)
    (gzResponse plainResponse : Response) :
    (gzResponse.ok = false →
      (fetchWithDecompress true gunzip parseJson gzResponse plainResponse =
        (if plainResponse.ok then responseJson parseJson plainResponse.body
         else FetchOutcome.httpError plainResponse.status))
      ∧ ((∃ s, fetchWithDecompress true gunzip parseJson gzResponse
            plainResponse = FetchOutcome.httpError s)
          ↔ plainResponse.ok = false))
    ∧ (plainResponse.ok = false →
        fetchWithDecompress false gunzip parseJson gzResponse plainResponse =
          FetchOutcome.httpError plainResponse.status) := by
  constructor
  · intro hgz
    have heq : fetchWithDecompress true gunzip parseJson gzResponse
        plainResponse =
        (if plainResponse.ok then responseJson parseJson plainResponse.body
         else FetchOutcome.httpError plainResponse.status) := by
      cases hp : plainResponse.ok <;> simp [fetchWithDecompress, hgz, hp]
    refine ⟨heq, ?_⟩
    rw [heq]
    cases hp : plainResponse.ok
    · simp
    · simp only [if_pos rfl, responseJson]
      cases hpj : parseJson plainResponse.body.flatten <;> simp
  · intro hp
    simp [fetchWithDecompress, hp]

/-- Witness for C3: a 404 on the `.gz` URL with an ok fallback parses the
fallback body; with gzip disabled a 500 throws at once. -/
theorem fetchWithDecompress_fallback_witness :
    fetchWithDecompress true (fun _ => none)
      (fun l => if l = [49] then some 1 else none)
      ⟨false, 404, []⟩ ⟨true, 200, [[49]]⟩ = FetchOutcome.json 1
    ∧ fetchWithDecompress false (fun _ => none)
        (fun l => if l = [49] then some 1 else none)
        ⟨false, 404, []⟩ ⟨false, 500, [[49]]⟩ = FetchOutcome.httpError 500 := by
  have h1 := fetchWithDecompress_fallback (fun _ => none)
    (fun l => if l = [49] then some 1 else none)
    ⟨false, 404, []⟩ ⟨true, 200, [[49]]⟩
  have h2 := fetchWithDecompress_fallback (fun _ => none)
    (fun l => if l = [49] then some 1 else none)
    ⟨false, 404, []⟩ ⟨false, 500, [[49]]⟩
  refine ⟨?_, h2.2 rfl⟩
  rw [(h1.1 rfl).1]
  decide

/-- **C10.** An ok response whose body is empty yields `null` (no JSON
parsing attempted, for every parser), and a first chunk of fewer than two
bytes is treated as not gzip-compressed. -/
theorem fetchWithDecompress_empty_body {J : Type}
    (gunzip : List Nat → Option (List Nat)) (parseJson : List Nat → Option J)
    (c : Chunk) (cs : List Chunk) :
    processBody gunzip parseJson [] = FetchOutcome.nullBody
    ∧ (c.length < 2 →
        processBody gunzip parseJson (c :: cs) =
          responseJson parseJson (c :: cs)) := by
  constructor
  · simp [processBody, Reader.read]
  · intro h
    have hfalse : isEncryptedCheck c = false := by
      match c, h with
      | [], _ => rfl
      | [b], _ => rfl
      | b0 :: b1 :: rest, h =>
        exact absurd h (by simp only [List.length_cons]; omega)
    rw [processBody_cons, if_neg (by simp [hfalse])]

/-- Witness for C10: the empty body yields `null`, and a one-byte first
chunk (even starting a split gzip magic number) goes down the plain JSON
path. -/
theorem fetchWithDecompress_empty_body_witness :
    processBody (fun _ => none)
      (fun l => if l = [31, 139] then some 9 else none)
      ([] : List Chunk) = FetchOutcome.nullBody
    ∧ processBody (fun _ => none)
        (fun l => if l = [31, 139] then some 9 else none)
        [[31], [139]] = FetchOutcome.json 9 := by
  have h := fetchWithDecompress_empty_body (fun _ => none)
    (fun l => if l = [31, 139] then some 9 else none) [31] [[139]]
  refine ⟨h.1, ?_⟩
  rw [h.2 (by decide)]
  decide

/-- **C4.** `getVibeColor` and `getVibeLabel` bucket every vibe value with
the same four thresholds `-0.5, 0.0, 0.3, 0.6` into five buckets (each
colour characterised by its threshold range), both functions are total (they
are Lean functions on all of `ℚ`), and label and colour always agree
bucket-for-bucket. -/
theorem getVibeColor_getVibeLabel_agree (v : ℚ) :
    (getVibeColor v = "#ef4444" ↔ v < -0.5)
    ∧ (getVibeColor v = "#f97316" ↔ (-0.5 ≤ v ∧ v < 0))
    ∧ (getVibeColor v = "#eab308" ↔ (0 ≤ v ∧ v < 0.3))
    ∧ (getVibeColor v = "#84cc16" ↔ (0.3 ≤ v ∧ v < 0.6))
    ∧ (getVibeColor v = "#22c55e" ↔ 0.6 ≤ v)
    ∧ (getVibeLabel v = "Crisis" ↔ getVibeColor v = "#ef4444")
    ∧ (getVibeLabel v = "Tense" ↔ getVibeColor v = "#f97316")
    ∧ (getVibeLabel v = "Neutral" ↔ getVibeColor v = "#eab308")
    ∧ (getVibeLabel v = "Stable" ↔ getVibeColor v = "#84cc16")
    ∧ (getVibeLabel v = "Thriving" ↔ getVibeColor v = "#22c55e") := by
  unfold getVibeColor getVibeLabel
  split_ifs with h1 h2 h3 h4 <;>
    refine ⟨?_, ?_, ?_, ?_, ?_, ?_, ?_, ?_, ?_, ?_⟩ <;>
    simp_all <;> norm_num at * <;>
    first
      | linarith
      | (intro hh; linarith)
      | (constructor <;> intro hh <;> linarith)

/-- Summing the four running totals of the `updateStats` loop equals the
componentwise sums over the cell list. -/
theorem updateStats_foldl (l : List (String × CellData)) (a b c d : ℚ) :
    l.foldl
      (fun acc kv =>
        (acc.1 + kv.2.vibe,
         acc.2.1 + (kv.2.count.getD 0),
         acc.2.2.1 + (kv.2.noise_count.getD 0),
         acc.2.2.2 + (kv.2.progress_count.getD 0)))
      (a, b, c, d)
    = (a + (l.map (fun kv => kv.2.vibe)).sum,
       b + (l.map (fun kv => kv.2.count.getD 0)).sum,
       c + (l.map (fun kv => kv.2.noise_count.getD 0)).sum,
       d + (l.map (fun kv => kv.2.progress_count.getD 0)).sum) := by
  induction l generalizing a b c d with
  | nil => simp
  | cons x xs ih =>
    simp only [List.foldl_cons, List.map_cons, List.sum_cons, ih,
      Prod.mk.injEq]
    refine ⟨by ring, by ring, by ring, by ring⟩

/-- **C5.** `updateStats` computes, in one scan of the cells: total events,
noise and progress as the sums of `count`, `noise_count` and
`progress_count` (missing fields contributing 0), the region count as the
number of cells, and the average vibe as the vibe sum over the cell count. -/
theorem updateStats_linear_scan (vibeScores : VibeScores)
    (_hne : vibeScores.cells ≠ []) :
    (updateStats vibeScores).totalEvents =
      (vibeScores.cells.map (fun kv => kv.2.count.getD 0)).sum
    ∧ (updateStats vibeScores).totalNoise =
        (vibeScores.cells.map (fun kv => kv.2.noise_count.getD 0)).sum
    ∧ (updateStats vibeScores).totalProgress =
        (vibeScores.cells.map (fun kv => kv.2.progress_count.getD 0)).sum
    ∧ (updateStats vibeScores).totalRegions = vibeScores.cells.length
    ∧ (updateStats vibeScores).avgVibe =
        (vibeScores.cells.map (fun kv => kv.2.vibe)).sum /
          (vibeScores.cells.length : ℚ) := by
  simp only [updateStats]
  rw [updateStats_foldl]
  simp

/-- Witness for C5 on a two-cell score object: one cell misses its
`noise_count` and `progress_count`, the other has them. -/
theorem updateStats_linear_scan_witness :
    (({ cells := [("a", ⟨1/2, some 3, none, none, 0, 0⟩),
                  ("b", ⟨-1/4, some 4, some 2, some 1, 0, 0⟩)] } :
        VibeScores).cells ≠ [])
    ∧ (updateStats
        { cells := [("a", ⟨1/2, some 3, none, none, 0, 0⟩),
                    ("b", ⟨-1/4, some 4, some 2, some 1, 0, 0⟩)] }).totalEvents
        = 7
    ∧ (updateStats
        { cells := [("a", ⟨1/2, some 3, none, none, 0, 0⟩),
                    ("b", ⟨-1/4, some 4, some 2, some 1, 0, 0⟩)] }).avgVibe
        = 1/8 := by
  have h := updateStats_linear_scan
    { cells := [("a", ⟨1/2, some 3, none, none, 0, 0⟩),
                ("b", ⟨-1/4, some 4, some 2, some 1, 0, 0⟩)] }
    (by decide)
  refine ⟨by decide, ?_, ?_⟩
  · rw [h.1]; norm_num
  · rw [h.2.2.2.2]; norm_num

/-- **C6.** `loadAllData` runs metadata, then the core grid on the fetched
metadata, then the vibe scores, strictly in that order (its trace is always
one of the three initial segments of that sequence, cut at the first
failure), and on every execution — returning `true` or propagating an error
— the final state has `isLoading = false`. -/
theorem loadAllData_sequential {E M G V : Type} (loadMetadata : Except E M)
    (loadCoreGrid : M → Except E G) (loadVibeScores : Except E V)
    (s : AppState M G V) :
    ((loadAllData loadMetadata loadCoreGrid loadVibeScores s).2.1.isLoading
      = false)
    ∧ ((loadAllData loadMetadata loadCoreGrid loadVibeScores s).2.2
          = [.metadata]
       ∨ (loadAllData loadMetadata loadCoreGrid loadVibeScores s).2.2
          = [.metadata, .coreGrid]
       ∨ (loadAllData loadMetadata loadCoreGrid loadVibeScores s).2.2
          = [.metadata, .coreGrid, .vibeScores])
    ∧ (∀ m, loadMetadata = .ok m →
        loadAllData loadMetadata loadCoreGrid loadVibeScores s =
          loadAllData loadMetadata (fun _ => loadCoreGrid m) loadVibeScores
            s) := by
  refine ⟨?_, ?_, ?_⟩
  · cases loadMetadata with
    | error e => simp [loadAllData]
    | ok m =>
      cases hg : loadCoreGrid m with
      | error e => simp [loadAllData, hg]
      | ok g => cases loadVibeScores <;> simp [loadAllData, hg]
  · cases loadMetadata with
    | error e => simp [loadAllData]
    | ok m =>
      cases hg : loadCoreGrid m with
      | error e => simp [loadAllData, hg]
      | ok g => cases loadVibeScores <;> simp [loadAllData, hg]
  · intro m hm
    subst hm
    rfl

/-- Witness for C6: metadata and grid succeed, the vibe-score load fails;
the error propagates, all three loads ran in order, and loading is off. -/
theorem loadAllData_sequential_witness :
    ((loadAllData (E := Nat) (M := Nat) (G := Nat) (V := Nat) (Except.ok 5) (fun m => Except.ok (m + 1))
        (Except.error 9)
        ⟨false, none, none, none⟩).2.1.isLoading = false)
    ∧ ((loadAllData (E := Nat) (M := Nat) (G := Nat) (V := Nat) (Except.ok 5) (fun m => Except.ok (m + 1))
          (Except.error 9) ⟨false, none, none, none⟩).2.2 = [.metadata]
       ∨ (loadAllData (E := Nat) (M := Nat) (G := Nat) (V := Nat) (Except.ok 5) (fun m => Except.ok (m + 1))
            (Except.error 9) ⟨false, none, none, none⟩).2.2
          = [.metadata, .coreGrid]
       ∨ (loadAllData (E := Nat) (M := Nat) (G := Nat) (V := Nat) (Except.ok 5) (fun m => Except.ok (m + 1))
            (Except.error 9) ⟨false, none, none, none⟩).2.2
          = [.metadata, .coreGrid, .vibeScores])
    ∧ loadAllData (E := Nat) (M := Nat) (G := Nat) (V := Nat) (Except.ok 5) (fun m => Except.ok (m + 1))
        (Except.error 9) ⟨false, none, none, none⟩
      = loadAllData (E := Nat) (M := Nat) (G := Nat) (V := Nat) (Except.ok 5) (fun _ => Except.ok (5 + 1))
          (Except.error 9) ⟨false, none, none, none⟩ := by
  have h := loadAllData_sequential (E := Nat) (M := Nat) (G := Nat) (V := Nat) (Except.ok 5)
    (fun m => Except.ok (m + 1)) (Except.error 9) ⟨false, none, none, none⟩
  exact ⟨h.1, h.2.1, h.2.2 5 rfl⟩

/-- **C7.** The pulse ticker displays the pulse's `progress_signal`,
`noise_signal` and `humanity_ratio` on every present element, classifies the
ratio with three exhaustive, mutually exclusive colour classes (green iff
`r > 1`, yellow iff `0.5 < r ≤ 1`, red iff `r ≤ 0.5`), and changes nothing
when `state.pulse` is null. -/
theorem updateGlobalPulse_spec (r : ℚ) :
    (ratioClass r = "font-bold text-green-400" ↔ 1 < r)
    ∧ (ratioClass r = "font-bold text-yellow-400" ↔ (0.5 < r ∧ r ≤ 1))
    ∧ (ratioClass r = "font-bold text-red-400" ↔ r ≤ 0.5)
    ∧ (∀ fmtNum fmtFixed dom,
        updateGlobalPulse fmtNum fmtFixed none dom = dom)
    ∧ (∀ fmtNum fmtFixed (p : Pulse) (dom : PulseDom),
        (updateGlobalPulse fmtNum fmtFixed (some p) dom).pulseProgress
          = dom.pulseProgress.map
              (fun e => { e with textContent := fmtNum p.progress_signal })
        ∧ (updateGlobalPulse fmtNum fmtFixed (some p) dom).pulseNoise
            = dom.pulseNoise.map
                (fun e => { e with textContent := fmtNum p.noise_signal })
        ∧ (updateGlobalPulse fmtNum fmtFixed (some p) dom).pulseProgressMobile
            = dom.pulseProgressMobile.map
                (fun e => { e with textContent := fmtNum p.progress_signal })
        ∧ (updateGlobalPulse fmtNum fmtFixed (some p) dom).pulseNoiseMobile
            = dom.pulseNoiseMobile.map
                (fun e => { e with textContent := fmtNum p.noise_signal })
        ∧ (updateGlobalPulse fmtNum fmtFixed (some p) dom).pulseRatio
            = dom.pulseRatio.map
                (fun _e =>
                  { textContent := fmtFixed p.humanity_ratio,
                    className :=
                      "text-lg " ++ ratioClass p.humanity_ratio })
        ∧ (updateGlobalPulse fmtNum fmtFixed (some p) dom).pulseRatioMobile
            = dom.pulseRatioMobile.map
                (fun e =>
                  { e with textContent := fmtFixed p.humanity_ratio,
                           className := ratioClass p.humanity_ratio })) := by
  refine ⟨?_, ?_, ?_, ?_, ?_⟩
  · unfold ratioClass
    split_ifs with h1 h2 <;> simp_all <;> norm_num at * <;> try linarith
  · unfold ratioClass
    split_ifs with h1 h2 <;> simp_all <;> norm_num at * <;>
      try (constructor <;> intro hh <;> linarith)
  · unfold ratioClass
    split_ifs with h1 h2 <;> simp_all <;> norm_num at * <;> try linarith
  · intro fmtNum fmtFixed dom
    rfl
  · intro fmtNum fmtFixed p dom
    exact ⟨rfl, rfl, rfl, rfl, rfl, rfl⟩

/-- Setting a property via object spread makes that key map to the new
value. -/
theorem getProp_setProp_self (props : List (String × PropValue)) (k : String)
    (v : PropValue) : getProp (setProp props k v) k = some v := by
  induction props with
  | nil => simp [getProp, setProp]
  | cons x xs ih =>
    by_cases hx : x.1 = k
    · simpa [setProp, List.filter_cons, hx] using ih
    · simpa [setProp, List.filter_cons, hx, getProp, List.find?_cons] using ih

/-- Filtering out the entries for key `k` does not change a lookup for a
different key `k2`. -/
theorem find?_filter_ne (xs : List (String × PropValue)) (k k2 : String)
    (h : k2 ≠ k) :
    (xs.filter (fun kv => kv.1 != k)).find? (fun kv => kv.1 == k2)
      = xs.find? (fun kv => kv.1 == k2) := by
  induction xs with
  | nil => rfl
  | cons x xs ih =>
    by_cases hx : x.1 = k
    · have hxk2 : (x.1 == k2) = false := by
        simp only [beq_eq_false_iff_ne]
        exact fun hh => h (hh ▸ hx)
      have hfilter : (x :: xs).filter (fun kv => kv.1 != k)
          = xs.filter (fun kv => kv.1 != k) := by
        simp [List.filter_cons, hx]
      rw [hfilter, ih]
      simp only [List.find?_cons]
      rw [hxk2]
    · have hfilter : (x :: xs).filter (fun kv => kv.1 != k)
          = x :: xs.filter (fun kv => kv.1 != k) := by
        simp [List.filter_cons, hx]
      rw [hfilter]
      by_cases hx2 : x.1 = k2
      · have hxk2 : (x.1 == k2) = true := by simp [hx2]
        simp only [List.find?_cons]
        rw [hxk2]
      · have hxk2 : (x.1 == k2) = false := by simp [hx2]
        simp only [List.find?_cons]
        rw [hxk2, ih]

/-- Setting a property via object spread leaves every other key's value
unchanged. -/
theorem getProp_setProp_other (props : List (String × PropValue))
    (k : String) (v : PropValue) (k2 : String) (h : k2 ≠ k) :
    getProp (setProp props k v) k2 = getProp props k2 := by
  have hk : (k == k2) = false := beq_eq_false_iff_ne.mpr (Ne.symm h)
  simp only [getProp, setProp, List.find?_append, find?_filter_ne _ _ _ h,
    List.find?_cons, hk, List.find?_nil, Option.or_none]

/-- **C8.** The decoration step of `loadCoreGrid` keeps the number and order
of features, keeps each feature's id, sets `properties.h3_index` to the
feature's id, and preserves every other property unchanged. -/
theorem loadCoreGrid_decoration (grid : Grid) :
    (decorateGrid grid).features.length = grid.features.length
    ∧ (∀ i (h1 : i < (decorateGrid grid).features.length)
        (h2 : i < grid.features.length),
        (decorateGrid grid).features.get ⟨i, h1⟩ =
          decorateFeature (grid.features.get ⟨i, h2⟩))
    ∧ (∀ feature : Feature,
        (decorateFeature feature).id = feature.id
        ∧ getProp (decorateFeature feature).properties "h3_index"
            = some (.str feature.id)
        ∧ ∀ k, k ≠ "h3_index" →
            getProp (decorateFeature feature).properties k
              = getProp feature.properties k) := by
  refine ⟨by simp [decorateGrid], ?_, ?_⟩
  · intro i h1 h2
    simp [decorateGrid]
  · intro feature
    refine ⟨rfl, ?_, ?_⟩
    · exact getProp_setProp_self feature.properties "h3_index"
        (.str feature.id)
    · intro k hk
      exact getProp_setProp_other feature.properties "h3_index"
        (.str feature.id) k hk

/-- Witness for C8 on a one-feature grid whose feature already carries a
stale `h3_index` and one ordinary property. -/
theorem loadCoreGrid_decoration_witness :
    (decorateGrid
        { features := [⟨"abc", "geom",
            [("name", .str "x"), ("h3_index", .str "old")]⟩] }).features.length
      = 1
    ∧ (decorateGrid
        { features := [⟨"abc", "geom",
            [("name", .str "x"), ("h3_index", .str "old")]⟩] }).features.get
        ⟨0, by decide⟩
      = decorateFeature
          ⟨"abc", "geom", [("name", .str "x"), ("h3_index", .str "old")]⟩
    ∧ getProp (decorateFeature
          ⟨"abc", "geom",
            [("name", .str "x"), ("h3_index", .str "old")]⟩).properties
        "h3_index" = some (.str "abc")
    ∧ getProp (decorateFeature
          ⟨"abc", "geom",
            [("name", .str "x"), ("h3_index", .str "old")]⟩).properties
        "name" = some (.str "x") := by
  have h := loadCoreGrid_decoration
    { features := [⟨"abc", "geom",
        [("name", .str "x"), ("h3_index", .str "old")]⟩] }
  have hf := h.2.2 ⟨"abc", "geom", [("name", .str "x"),
    ("h3_index", .str "old")]⟩
  exact ⟨h.1, h.2.1 0 (by decide) (by decide), hf.2.1,
    hf.2.2 "name" (by decide)⟩

/-- **C9.** For a cell with `p_int, n_int ≥ 0` and `vibe ∈ [-1, 1]`,
`getVisualizationValue` lies in `[0, 1]` in every view mode and equals the
mode's formula; for an H3 index with no cell data it is 0 in every mode. -/
theorem getVisualizationValue_spec (vibeScores : VibeScores)
    (mode h3Index : String) :
    (getCell vibeScores.cells h3Index = none →
      getVisualizationValue vibeScores mode h3Index = 0)
    ∧ (∀ cellData, getCell vibeScores.cells h3Index = some cellData →
        (mode = "progress" →
          getVisualizationValue vibeScores mode h3Index =
            min 1 (cellData.p_int / 10))
        ∧ (mode = "noise" →
            getVisualizationValue vibeScores mode h3Index =
              min 1 (cellData.n_int / 10))
        ∧ (mode ≠ "progress" → mode ≠ "noise" →
            getVisualizationValue vibeScores mode h3Index =
              (cellData.vibe + 1) / 2)
        ∧ (0 ≤ cellData.p_int → 0 ≤ cellData.n_int →
            -1 ≤ cellData.vibe → cellData.vibe ≤ 1 →
            0 ≤ getVisualizationValue vibeScores mode h3Index
            ∧ getVisualizationValue vibeScores mode h3Index ≤ 1)) := by
  constructor
  · intro hnone
    simp [getVisualizationValue, hnone]
  · intro cellData hsome
    have hval : getVisualizationValue vibeScores mode h3Index =
        (if mode = "progress" then min 1 (cellData.p_int / 10)
         else if mode = "noise" then min 1 (cellData.n_int / 10)
         else (cellData.vibe + 1) / 2) := by
      simp [getVisualizationValue, hsome]
    refine ⟨?_, ?_, ?_, ?_⟩
    · intro hm
      subst hm
      simp [hval]
    · intro hm
      subst hm
      simp [hval]
    · intro hm1 hm2
      rw [hval, if_neg hm1, if_neg hm2]
    · intro hp hn hv1 hv2
      rw [hval]
      split_ifs
      · constructor
        · exact le_min (by norm_num) (by positivity)
        · exact min_le_left 1 _
      · constructor
        · exact le_min (by norm_num) (by positivity)
        · exact min_le_left 1 _
      · constructor <;> [linarith; linarith]

/-- A sample vibe-scores cell used to witness C9. -/
def sampleCell : CellData := ⟨1/2, none, none, none, 4, 30⟩

/-- A one-cell vibe-scores object used to witness C9. -/
def sampleScores : VibeScores := { cells := [("a", sampleCell)] }

/-- Witness for C9: a one-cell score object evaluated in all three modes
and at a missing index. -/
theorem getVisualizationValue_spec_witness :
    getVisualizationValue sampleScores "progress" "a" = 2/5
    ∧ getVisualizationValue sampleScores "noise" "a" = 1
    ∧ getVisualizationValue sampleScores "balanced" "a" = 3/4
    ∧ getVisualizationValue sampleScores "balanced" "b" = 0
    ∧ (0 : ℚ) ≤ getVisualizationValue sampleScores "progress" "a" := by
  have hp := getVisualizationValue_spec sampleScores "progress" "a"
  have hn := getVisualizationValue_spec sampleScores "noise" "a"
  have hbal := getVisualizationValue_spec sampleScores "balanced" "a"
  have hb := getVisualizationValue_spec sampleScores "balanced" "b"
  have hcell : getCell sampleScores.cells "a" = some sampleCell := rfl
  refine ⟨?_, ?_, ?_, hb.1 rfl, ?_⟩
  · rw [(hp.2 sampleCell hcell).1 rfl]
    norm_num [sampleCell]
  · rw [(hn.2 sampleCell hcell).2.1 rfl]
    norm_num [sampleCell, min_def]
  · rw [(hbal.2 sampleCell hcell).2.2.1 (by decide) (by decide)]
    norm_num [sampleCell]
  · exact ((hp.2 sampleCell hcell).2.2.2 (by norm_num [sampleCell])
      (by norm_num [sampleCell]) (by norm_num [sampleCell])
      (by norm_num [sampleCell])).1

end AtlasInContext
